import Mathlib

/-! Gas estimation of the rollup sender.

A shallow embedding of `rollup/internal/controller/sender/estimategas.go`:
`finetuneAccessList`, `estimateGasLimit`, `estimateLegacyGas` and
`estimateDynamicGas`, followed by the properties proved about them.

Conventions of the embedding
* `uint64` values are natural numbers; every arithmetic operation the source
  performs on them is reduced modulo `2 ^ 64` explicitly.
* `*big.Int` values are (optional) integers of arbitrary precision.
* Go pointers that may be `nil` are `Option`s; a Go slice is a `List`
  (the `nil` slice and the empty slice are both `[]`).
* The chain client is a record of functions from the request to the reply.
* Logging is not modelled, except that the arguments of a log call are
  evaluated: `to.String()` dereferences `to` and panics when `to` is `nil`.
-/

namespace EstimateGas

/-! ## Data model -/

/-- The modulus of `uint64` arithmetic. -/
def u64 : Nat := 2 ^ 64

/-- A `common.Address` (20 bytes), read as a number. -/
abbrev Address := Nat

/-- A `common.Hash` (32 bytes), read as a number. -/
abbrev Hash := Nat

/-- An entry of `types.AccessList`: an address and its storage keys. -/
structure AccessTuple where
  Address : EstimateGas.Address
  StorageKeys : List Hash
deriving DecidableEq, Repr

/-- The slice type `types.AccessList`. -/
abbrev AccessList := List AccessTuple

/-- Go `error` values met in this file: an error handed back by the chain
client, or the value built by `fmt.Errorf(errStr)` from the execution-error
string of `CreateAccessList`. -/
inductive Error where
  | rpc (code : Nat)
  | errorf (format : String)
deriving DecidableEq, Repr

/-- The request `ethereum.CallMsg`. -/
structure CallMsg where
  From : Address
  To : Option Address
  Gas : Nat
  GasPrice : Option Int
  GasFeeCap : Option Int
  GasTipCap : Option Int
  Value : Option Int
  Data : List Nat
  AccessList : EstimateGas.AccessList
deriving DecidableEq, Repr

/-- The four values returned by `gethClient.CreateAccessList`. -/
structure CreateAccessListResult where
  accessList : Option AccessList
  gasUsed : Nat
  vmErr : String
  err : Option Error
deriving DecidableEq, Repr

/-- The part of `s.client` used here. -/
structure Client where
  SuggestGasPrice : Except Error Int
  SuggestGasTipCap : Except Error Int
  EstimateGas : CallMsg → Except Error Nat

/-- The part of `s.gethClient` used here. -/
structure GethClient where
  CreateAccessList : CallMsg → CreateAccessListResult

/-- Modelled from the spec: the declaration of the `Sender` type is not part
of the sources at hand; only the fields the estimators read are kept
(`auth.From`, `client`, `gethClient`). -/
structure Sender where
  From : Address
  client : Client
  gethClient : GethClient

/-- Modelled from the spec: the declaration of the `FeeData` type (the
FeeQuote of the specification) is not part of the sources at hand. Its fields
are `gasPrice`, `gasTipCap`, `gasFeeCap` (big integers, possibly absent),
`gasLimit` and `accessList`. -/
structure FeeData where
  gasFeeCap : Option Int
  gasTipCap : Option Int
  gasPrice : Option Int
  accessList : AccessList
  gasLimit : Nat
deriving DecidableEq, Repr

/-- How a call of a Go function ends: it returns its results, or it panics
on a nil pointer dereference. -/
inductive Outcome (α : Type) where
  | returned (v : α)
  | nilDereference
deriving DecidableEq, Repr

/-! ## The access list optimizer -/

/-- The test of line 119: the entry is for the destination and has fewer than
24 storage keys. -/
def redundant (dest : Address) (entry : AccessTuple) : Bool :=
  decide (entry.Address = dest) && decide (entry.StorageKeys.length < 24)

/-- The gas adjustment of lines 123 and 125, in `uint64` arithmetic:
`gas -= 2400; gas += uint64(100 * len(entry.StorageKeys))`. -/
def adjustGas (gas : Nat) (entry : AccessTuple) : Nat :=
  ((gas + (u64 - 2400)) % u64 + (100 * entry.StorageKeys.length) % u64) % u64

/-- The loop of lines 118 to 130, with the list built so far and the running
gas limit as explicit state. -/
def finetuneLoop (dest : Address) : List AccessTuple → AccessList → Nat → AccessList × Nat
  | [], newAccessList, gas => (newAccessList, gas)
  | entry :: rest, newAccessList, gas =>
    if redundant dest entry then
      finetuneLoop dest rest newAccessList (adjustGas gas entry)
    else
      finetuneLoop dest rest (newAccessList ++ [entry]) gas

/-- The function `finetuneAccessList` of lines 112 to 132; `dest` is the
parameter `to` of the source. -/
def finetuneAccessList (accessList : Option AccessList) (gasLimitWithAccessList : Nat)
    (dest : Option Address) : Option AccessList × Nat :=
  match accessList, dest with
  | none, _ => (accessList, gasLimitWithAccessList)
  | _, none => (accessList, gasLimitWithAccessList)
  | some l, some t =>
    let r := finetuneLoop t l [] gasLimitWithAccessList
    (some r.1, r.2)

/-! ## The gas limit estimator -/

/-- The request built at lines 68 to 76: `Gas` and `AccessList` are left at
their zero values. -/
def baselineMsg (s : Sender) (dest : Option Address) (data : List Nat)
    (gasPrice gasTipCap gasFeeCap value : Option Int) : CallMsg where
  From := s.From
  To := dest
  Gas := 0
  GasPrice := gasPrice
  GasFeeCap := gasFeeCap
  GasTipCap := gasTipCap
  Value := value
  Data := data
  AccessList := []

/-- The request of line 89: the baseline request with
`msg.Gas = gasLimitWithoutAccessList * 3` in `uint64` arithmetic. -/
def accessListMsg (msg : CallMsg) (gasLimitWithoutAccessList : Nat) : CallMsg :=
  { msg with Gas := (gasLimitWithoutAccessList * 3) % u64 }

/-- The method `estimateGasLimit` of lines 67 to 110. The result is the Go
triple `(uint64, *types.AccessList, error)`. -/
def estimateGasLimit (s : Sender) (dest : Option Address) (data : List Nat)
    (gasPrice gasTipCap gasFeeCap value : Option Int) (useAccessList : Bool) :
    Nat × Option AccessList × Option Error :=
  let msg := baselineMsg s dest data gasPrice gasTipCap gasFeeCap value
  match s.client.EstimateGas msg with
  | .error err => (0, none, some err)
  | .ok gasLimitWithoutAccessList =>
    if !useAccessList then
      (gasLimitWithoutAccessList, none, none)
    else
      let msg := accessListMsg msg gasLimitWithoutAccessList
      let r := s.gethClient.CreateAccessList msg
      match r.err with
      | some rpcErr => (gasLimitWithoutAccessList, none, some rpcErr)
      | none =>
        if r.vmErr ≠ "" then
          (gasLimitWithoutAccessList, none, some (Error.errorf r.vmErr))
        else
          let ft := finetuneAccessList r.accessList r.gasUsed msg.To
          if ft.2 < gasLimitWithoutAccessList then
            (ft.2, ft.1, none)
          else
            (gasLimitWithoutAccessList, none, none)

/-! ## The fee estimators -/

/-- The margin of lines 28 and 54: `gasLimit * 12 / 10` in `uint64`
arithmetic. -/
def addMargin (gasLimit : Nat) : Nat :=
  (gasLimit * 12) % u64 / 10

/-- The method `estimateLegacyGas` of lines 13 to 34; `dest` is the parameter
`to` of the source. The log call of lines 21 and 22 evaluates `to.String()`,
a method with a value receiver called through the pointer `to`. -/
def estimateLegacyGas (s : Sender) (dest : Option Address) (value : Option Int)
    (data : List Nat) (fallbackGasLimit : Nat) : Outcome (Option FeeData × Option Error) :=
  match s.client.SuggestGasPrice with
  | .error err => .returned (none, some err)
  | .ok gasPrice =>
    let r := estimateGasLimit s dest data (some gasPrice) none none value false
    match r.2.2 with
    | some err =>
      match dest with
      | none => .nilDereference
      | some _ =>
        if fallbackGasLimit = 0 then
          .returned (none, some err)
        else
          .returned (some { gasPrice := some gasPrice, gasLimit := fallbackGasLimit,
                            gasTipCap := none, gasFeeCap := none, accessList := [] }, none)
    | none =>
      .returned (some { gasPrice := some gasPrice, gasLimit := addMargin r.1,
                        gasTipCap := none, gasFeeCap := none, accessList := [] }, none)

/-- The method `estimateDynamicGas` of lines 36 to 65; `dest` is the parameter
`to` of the source. The log call of lines 46 to 48 evaluates `to.String()`. -/
def estimateDynamicGas (s : Sender) (dest : Option Address) (value : Option Int)
    (data : List Nat) (fallbackGasLimit : Nat) (baseFee : Nat) :
    Outcome (Option FeeData × Option Error) :=
  match s.client.SuggestGasTipCap with
  | .error err => .returned (none, some err)
  | .ok gasTipCap =>
    let gasFeeCap : Int := gasTipCap + (baseFee : Int) * 2
    let r := estimateGasLimit s dest data none (some gasTipCap) (some gasFeeCap) value true
    let accessList := r.2.1
    match r.2.2 with
    | some err =>
      match dest with
      | none => .nilDereference
      | some _ =>
        if fallbackGasLimit = 0 then
          .returned (none, some err)
        else
          .returned (some { gasLimit := fallbackGasLimit, gasTipCap := some gasTipCap,
                            gasFeeCap := some gasFeeCap, gasPrice := none,
                            accessList := accessList.getD [] }, none)
    | none =>
      .returned (some { gasLimit := addMargin r.1, gasTipCap := some gasTipCap,
                        gasFeeCap := some gasFeeCap, gasPrice := none,
                        accessList := accessList.getD [] }, none)

/-! ## Concrete inputs -/

/-- A sender whose chain client answers every request with the given replies. -/
def fixedSender (price tip : Except Error Int) (gas : Except Error Nat)
    (cal : CreateAccessListResult) : Sender where
  From := 1
  client := { SuggestGasPrice := price, SuggestGasTipCap := tip, EstimateGas := fun _ => gas }
  gethClient := { CreateAccessList := fun _ => cal }

/-- An access list entry for `addr` with `n` storage keys `0, 1, ..., n - 1`. -/
def entryWith (addr : Address) (n : Nat) : AccessTuple :=
  { Address := addr, StorageKeys := List.range n }

/-- Scenario D of the specification, with a second entry for another address:
the baseline simulation returns 100000, the access-list simulation returns
90000 and a list with an entry for the destination `7` with 10 storage keys. -/
def scenarioD : Sender :=
  fixedSender (.ok 1) (.ok 2) (.ok 100000)
    ⟨some [entryWith 7 10, entryWith 8 3], 90000, "", none⟩

/-- Scenario A of the specification: the baseline simulation returns 100000
(and the access-list simulation finds nothing cheaper). -/
def scenarioA : Sender :=
  fixedSender (.ok 1) (.ok 2) (.ok 100000) ⟨some [], 100000, "", none⟩

/-- A sender whose simulations return the `uint64` value `2 ^ 63`. -/
def largeGasSender : Sender :=
  fixedSender (.ok 1) (.ok 2) (.ok 9223372036854775808)
    ⟨none, 9223372036854775808, "", none⟩

/-- Scenario B of the specification: the baseline simulation fails. -/
def scenarioB : Sender :=
  fixedSender (.ok 1) (.ok 2) (.error (.rpc 1)) ⟨none, 0, "", none⟩

/-- Scenario F of the specification: the baseline simulation returns 100000
and the access-list simulation reports an execution-error string. -/
def scenarioF : Sender :=
  fixedSender (.ok 1) (.ok 2) (.ok 100000)
    ⟨some [entryWith 7 10], 90000, "execution reverted", none⟩

/-- The access-list simulation fails with an RPC error after a successful
baseline simulation. -/
def rpcFailureSender : Sender :=
  fixedSender (.ok 1) (.ok 2) (.ok 100000) ⟨none, 0, "", some (.rpc 2)⟩

/-- The gas-price query and the tip query both fail. -/
def priceFailureSender : Sender :=
  fixedSender (.error (.rpc 3)) (.error (.rpc 4)) (.ok 100000) ⟨some [], 100000, "", none⟩

/-- The simulations return the gas estimate 0. -/
def zeroGasSender : Sender :=
  fixedSender (.ok 1) (.ok 2) (.ok 0) ⟨none, 0, "", none⟩

/-- A sender whose baseline simulation succeeds (with 100000) only for a
request that has no gas price, no tip cap and no fee cap set, and fails with
the error `rpc 9` for any other request. -/
def priceSensitiveSender : Sender where
  From := 1
  client :=
    { SuggestGasPrice := .ok 1
      SuggestGasTipCap := .ok 2
      EstimateGas := fun msg =>
        if msg.GasPrice.isNone && msg.GasTipCap.isNone && msg.GasFeeCap.isNone then .ok 100000
        else .error (.rpc 9) }
  gethClient := { CreateAccessList := fun _ => ⟨some [], 100000, "", none⟩ }

/-- A sender whose baseline simulation returns `g` and whose access-list
simulation fails with an RPC error that carries the `Gas` field of the
request it was given. -/
def ceilingEchoSender (g : Nat) : Sender where
  From := 1
  client := { SuggestGasPrice := .ok 1, SuggestGasTipCap := .ok 2, EstimateGas := fun _ => .ok g }
  gethClient := { CreateAccessList := fun msg => ⟨none, 0, "", some (.rpc msg.Gas)⟩ }

/-! ## Properties of the access list optimizer -/

theorem redundant_iff (d : Address) (e : AccessTuple) :
    redundant d e = true ↔ e.Address = d ∧ e.StorageKeys.length < 24 := by
  simp [redundant]

theorem redundant_eq_decide (d : Address) :
    redundant d = fun e => decide (e.Address = d ∧ e.StorageKeys.length < 24) := by
  funext e
  simp [redundant, Bool.decide_and]

theorem not_redundant_eq_decide (d : Address) :
    (fun e => !redundant d e)
      = fun e => decide (e.Address ≠ d ∨ 24 ≤ e.StorageKeys.length) := by
  funext e
  by_cases h1 : e.Address = d
  · by_cases h2 : e.StorageKeys.length < 24
    · simp [redundant, h1, h2]
    · simp [redundant, h1, h2]
      omega
  · simp [redundant, h1]

theorem finetuneLoop_cons_dropped (d : Address) (e : AccessTuple) (rest : List AccessTuple)
    (acc : AccessList) (g : Nat) (h : redundant d e = true) :
    finetuneLoop d (e :: rest) acc g = finetuneLoop d rest acc (adjustGas g e) := by
  simp [finetuneLoop, h]

theorem finetuneLoop_cons_kept (d : Address) (e : AccessTuple) (rest : List AccessTuple)
    (acc : AccessList) (g : Nat) (h : ¬ redundant d e = true) :
    finetuneLoop d (e :: rest) acc g = finetuneLoop d rest (acc ++ [e]) g := by
  simp [finetuneLoop, h]

/-- The list built by the loop is the accumulator followed by the entries
that are not dropped, in their order. -/
theorem finetuneLoop_fst (d : Address) (l : List AccessTuple) (acc : AccessList) (g : Nat) :
    (finetuneLoop d l acc g).1 = acc ++ l.filter (fun e => !redundant d e) := by
  induction l generalizing acc g with
  | nil => simp [finetuneLoop]
  | cons e rest ih =>
    by_cases h : redundant d e = true
    · simp [finetuneLoop, h, ih]
    · simp [finetuneLoop, h, ih]

/-- The gas limit computed by the loop does not depend on the accumulator. -/
theorem finetuneLoop_snd_acc (d : Address) (l : List AccessTuple) (acc : AccessList) (g : Nat) :
    (finetuneLoop d l acc g).2 = (finetuneLoop d l [] g).2 := by
  induction l generalizing acc g with
  | nil => simp [finetuneLoop]
  | cons e rest ih =>
    by_cases h : redundant d e = true
    · rw [finetuneLoop_cons_dropped d e rest acc g h, finetuneLoop_cons_dropped d e rest [] g h]
      exact ih acc _
    · rw [finetuneLoop_cons_kept d e rest acc g h, finetuneLoop_cons_kept d e rest [] g h,
        ih (acc ++ [e]) g, ih ([] ++ [e]) g]

/-- A list without dropped entries leaves the gas limit as it is. -/
theorem finetuneLoop_snd_of_kept (d : Address) (l : List AccessTuple) (acc : AccessList)
    (g : Nat) (h : ∀ e ∈ l, redundant d e = false) : (finetuneLoop d l acc g).2 = g := by
  induction l generalizing acc with
  | nil => simp [finetuneLoop]
  | cons e rest ih =>
    have he : ¬ redundant d e = true := by simp [h e (List.mem_cons_self _ _)]
    rw [finetuneLoop_cons_kept d e rest acc g he]
    exact ih _ (fun x hx => h x (List.mem_cons_of_mem _ hx))

/-- Kept entries can be removed from the input without changing the gas limit. -/
theorem finetuneLoop_snd_filter (d : Address) (l : List AccessTuple) (acc : AccessList)
    (g : Nat) :
    (finetuneLoop d l acc g).2 = (finetuneLoop d (l.filter (redundant d)) [] g).2 := by
  induction l generalizing acc g with
  | nil => simp [finetuneLoop]
  | cons e rest ih =>
    by_cases h : redundant d e = true
    · rw [finetuneLoop_cons_dropped d e rest acc g h, List.filter_cons_of_pos h,
        finetuneLoop_cons_dropped d e _ [] g h]
      exact ih _ _
    · rw [finetuneLoop_cons_kept d e rest acc g h, List.filter_cons_of_neg h]
      exact ih _ _

theorem adjustGas_lt (g : Nat) (e : AccessTuple) : adjustGas g e < u64 := by
  unfold adjustGas
  exact Nat.mod_lt _ (by decide)

theorem adjustGas_cast (g : Nat) (e : AccessTuple) :
    ((adjustGas g e : Nat) : Int) % 18446744073709551616
      = ((g : Int) - 2400 + 100 * (e.StorageKeys.length : Int)) % 18446744073709551616 := by
  unfold adjustGas u64
  norm_num
  omega

/-- The gas limit computed by the loop, as an integer modulo `2 ^ 64`. -/
theorem finetuneLoop_snd_cast (d : Address) (l : List AccessTuple) (acc : AccessList)
    (g : Nat) (hg : g < u64) :
    (((finetuneLoop d l acc g).2 : Nat) : Int)
      = ((g : Int) - 2400 * ((l.filter (redundant d)).length : Int)
          + 100 * ((((l.filter (redundant d)).map (fun e => e.StorageKeys.length)).sum : Nat) : Int))
        % 18446744073709551616 := by
  induction l generalizing acc g with
  | nil =>
    unfold u64 at hg
    simp [finetuneLoop]
    omega
  | cons e rest ih =>
    by_cases h : redundant d e = true
    · have hc := adjustGas_cast g e
      rw [finetuneLoop_cons_dropped d e rest acc g h, List.filter_cons_of_pos h,
        ih acc (adjustGas g e) (adjustGas_lt g e)]
      simp only [List.length_cons, List.map_cons, List.sum_cons]
      push_cast
      omega
    · rw [finetuneLoop_cons_kept d e rest acc g h, List.filter_cons_of_neg h]
      exact ih _ g hg

/-- C1: for a non-nil access list `L` and a non-nil destination `d`, the list
returned by `finetuneAccessList` has no entry whose address is `d` and which
has fewer than 24 storage keys, whatever the gas limit. -/
theorem finetuneAccessList_drops_small_destination_entries
    (L : AccessList) (g : Nat) (d : Address) :
    ∃ L' : AccessList, (finetuneAccessList (some L) g (some d)).1 = some L' ∧
      ∀ e ∈ L', ¬ (e.Address = d ∧ e.StorageKeys.length < 24) := by
  refine ⟨L.filter (fun e => !redundant d e), ?_, ?_⟩
  · simp [finetuneAccessList, finetuneLoop_fst]
  · intro e he hbad
    have hk := (List.mem_filter.1 he).2
    have hr := (redundant_iff d e).2 hbad
    simp [hr] at hk

/-- C2: `finetuneAccessList` is idempotent: a second pass over the list and
the gas limit returned by a first pass returns both unchanged, for every
access list (nil included), gas limit and destination (nil included). -/
theorem finetuneAccessList_idempotent
    (L : Option AccessList) (g : Nat) (d : Option Address) :
    finetuneAccessList (finetuneAccessList L g d).1 (finetuneAccessList L g d).2 d
      = finetuneAccessList L g d := by
  cases L with
  | none => simp [finetuneAccessList]
  | some l =>
    cases d with
    | none => simp [finetuneAccessList]
    | some t =>
      have hkept : ∀ e ∈ l.filter (fun e => !redundant t e), redundant t e = false := by
        intro e he
        have := (List.mem_filter.1 he).2
        simpa using this
      simp only [finetuneAccessList, finetuneLoop_fst, List.nil_append]
      rw [finetuneLoop_snd_of_kept t _ [] _ hkept]
      simp [List.filter_filter]

/-- C3: for a non-nil access list `L`, a non-nil destination `d` and a
`uint64` gas limit `g`, the gas limit returned by `finetuneAccessList` is
`g - 2400 * k + 100 * S` modulo `2 ^ 64`, with `k` the number of entries of `L`
for `d` with fewer than 24 storage keys and `S` the number of storage keys of
those entries; for `g = 90000` and one destination entry with 10 storage keys
it is 88600. -/
theorem finetuneAccessList_gas (L : AccessList) (g : Nat) (d : Address) (hg : g < 2 ^ 64) :
    (((finetuneAccessList (some L) g (some d)).2 : Nat) : Int)
        = ((g : Int)
            - 2400 * ((L.filter
                (fun e => decide (e.Address = d ∧ e.StorageKeys.length < 24))).length : Int)
            + 100 * ((((L.filter
                (fun e => decide (e.Address = d ∧ e.StorageKeys.length < 24))).map
                  (fun e => e.StorageKeys.length)).sum : Nat) : Int)) % 2 ^ 64
      ∧ (finetuneAccessList (some [entryWith d 10]) 90000 (some d)).2 = 88600 := by
  constructor
  · have h := finetuneLoop_snd_cast d L [] g hg
    rw [redundant_eq_decide] at h
    simpa [finetuneAccessList] using h
  · simp [finetuneAccessList, finetuneLoop, redundant, entryWith, adjustGas, u64]

theorem finetuneAccessList_gas_witness :
    (90000 : Nat) < 2 ^ 64 ∧
    (((finetuneAccessList (some [entryWith 7 10, entryWith 8 3]) 90000 (some 7)).2 : Nat) : Int)
        = ((90000 : Int)
            - 2400 * (([entryWith 7 10, entryWith 8 3].filter
                (fun e => decide (e.Address = 7 ∧ e.StorageKeys.length < 24))).length : Int)
            + 100 * (((([entryWith 7 10, entryWith 8 3].filter
                (fun e => decide (e.Address = 7 ∧ e.StorageKeys.length < 24))).map
                  (fun e => e.StorageKeys.length)).sum : Nat) : Int)) % 2 ^ 64 :=
  ⟨by decide, (finetuneAccessList_gas [entryWith 7 10, entryWith 8 3] 90000 7 (by decide)).1⟩

/-- C4: for a non-nil access list `L` and a non-nil destination `d`, the list
returned by `finetuneAccessList` is `L` filtered by "the address differs from
`d` or the entry has at least 24 storage keys" (kept entries unchanged and in
their order); the kept entries make no gas adjustment, the returned gas limit
being the one computed from the dropped entries alone; an entry for `d` with
30 storage keys is kept and the gas limit is left as it is. -/
theorem finetuneAccessList_keeps_other_entries (L : AccessList) (g : Nat) (d : Address) :
    (finetuneAccessList (some L) g (some d)).1
        = some (L.filter (fun e => decide (e.Address ≠ d ∨ 24 ≤ e.StorageKeys.length)))
      ∧ (finetuneAccessList (some L) g (some d)).2
        = (finetuneAccessList
            (some (L.filter (fun e => decide (e.Address = d ∧ e.StorageKeys.length < 24))))
            g (some d)).2
      ∧ finetuneAccessList (some (entryWith d 30 :: L)) g (some d)
        = (some (entryWith d 30 ::
              L.filter (fun e => decide (e.Address ≠ d ∨ 24 ≤ e.StorageKeys.length))),
            (finetuneAccessList (some L) g (some d)).2)
      ∧ finetuneAccessList (some [entryWith d 30]) g (some d) = (some [entryWith d 30], g) := by
  have h30 : ¬ redundant d (entryWith d 30) = true := by
    simp [redundant, entryWith]
  refine ⟨?_, ?_, ?_, ?_⟩
  · simp [finetuneAccessList, finetuneLoop_fst, not_redundant_eq_decide]
  · have h := finetuneLoop_snd_filter d L [] g
    rw [redundant_eq_decide] at h
    simpa [finetuneAccessList] using h
  · simp only [finetuneAccessList]
    rw [finetuneLoop_cons_kept d _ L [] g h30, finetuneLoop_fst, finetuneLoop_snd_acc,
      not_redundant_eq_decide]
    simp
  · simp only [finetuneAccessList]
    rw [finetuneLoop_cons_kept d _ [] [] g h30]
    simp [finetuneLoop]

/-! ## Properties of the gas limit estimator -/

/-- C5: when the baseline simulation returns `g` and the access-list
simulation returns neither an RPC error nor an error string,
`estimateGasLimit` with `useAccessList = true` returns the gas limit and the
list computed by `finetuneAccessList` if that gas limit is strictly below
`g`, and `g` with no access list otherwise; the returned gas limit is the
minimum of the two, and an access list is returned only with a gas limit
strictly below `g`. -/
theorem estimateGasLimit_picks_cheaper (s : Sender) (dest : Option Address)
    (data : List Nat) (gasPrice gasTipCap gasFeeCap value : Option Int) (g : Nat)
    (cal : CreateAccessListResult)
    (hbase : s.client.EstimateGas
        (baselineMsg s dest data gasPrice gasTipCap gasFeeCap value) = .ok g)
    (hcal : s.gethClient.CreateAccessList
        (accessListMsg (baselineMsg s dest data gasPrice gasTipCap gasFeeCap value) g) = cal)
    (herr : cal.err = none) (hvm : cal.vmErr = "") :
    ((finetuneAccessList cal.accessList cal.gasUsed dest).2 < g →
        estimateGasLimit s dest data gasPrice gasTipCap gasFeeCap value true
          = ((finetuneAccessList cal.accessList cal.gasUsed dest).2,
             (finetuneAccessList cal.accessList cal.gasUsed dest).1, none))
      ∧ (¬ (finetuneAccessList cal.accessList cal.gasUsed dest).2 < g →
        estimateGasLimit s dest data gasPrice gasTipCap gasFeeCap value true
          = (g, none, none))
      ∧ (estimateGasLimit s dest data gasPrice gasTipCap gasFeeCap value true).1
          = min g (finetuneAccessList cal.accessList cal.gasUsed dest).2
      ∧ ((estimateGasLimit s dest data gasPrice gasTipCap gasFeeCap value true).2.1 ≠ none →
          (estimateGasLimit s dest data gasPrice gasTipCap gasFeeCap value true).1 < g) := by
  have hto : (accessListMsg (baselineMsg s dest data gasPrice gasTipCap gasFeeCap value) g).To
      = dest := rfl
  have hmain : estimateGasLimit s dest data gasPrice gasTipCap gasFeeCap value true
      = if (finetuneAccessList cal.accessList cal.gasUsed dest).2 < g then
          ((finetuneAccessList cal.accessList cal.gasUsed dest).2,
           (finetuneAccessList cal.accessList cal.gasUsed dest).1, none)
        else (g, none, none) := by
    simp only [estimateGasLimit, hbase, hcal, herr, hvm, hto]
    simp
  by_cases hlt : (finetuneAccessList cal.accessList cal.gasUsed dest).2 < g
  · rw [hmain, if_pos hlt]
    refine ⟨fun _ => rfl, fun h => absurd hlt h, ?_, fun _ => hlt⟩
    exact (Nat.min_eq_right (Nat.le_of_lt hlt)).symm
  · rw [hmain, if_neg hlt]
    refine ⟨fun h => absurd h hlt, fun _ => rfl, ?_, fun h => absurd rfl h⟩
    exact (Nat.min_eq_left (Nat.le_of_not_lt hlt)).symm

theorem estimateGasLimit_picks_cheaper_witness :
    scenarioD.client.EstimateGas (baselineMsg scenarioD (some 7) [] none (some 2) (some 2002) none)
        = .ok 100000
      ∧ (finetuneAccessList (some [entryWith 7 10, entryWith 8 3]) 90000 (some 7)).2 < 100000
      ∧ estimateGasLimit scenarioD (some 7) [] none (some 2) (some 2002) none true
        = (88600, some [entryWith 8 3], none) :=
  ⟨rfl, by decide,
    ((estimateGasLimit_picks_cheaper scenarioD (some 7) [] none (some 2) (some 2002) none 100000
      ⟨some [entryWith 7 10, entryWith 8 3], 90000, "", none⟩ rfl rfl rfl rfl).1
        (by decide)).trans (by decide)⟩

/-- Without access-list optimization a successful baseline simulation is
returned as it is. -/
theorem estimateGasLimit_baseline (s : Sender) (dest : Option Address) (data : List Nat)
    (gasPrice gasTipCap gasFeeCap value : Option Int) (g : Nat)
    (hbase : s.client.EstimateGas
        (baselineMsg s dest data gasPrice gasTipCap gasFeeCap value) = .ok g) :
    estimateGasLimit s dest data gasPrice gasTipCap gasFeeCap value false = (g, none, none) := by
  simp [estimateGasLimit, hbase]

/-- A failed baseline simulation fails the estimation with its error. -/
theorem estimateGasLimit_baseline_failure (s : Sender) (dest : Option Address)
    (data : List Nat) (gasPrice gasTipCap gasFeeCap value : Option Int) (b : Bool) (err : Error)
    (hbase : s.client.EstimateGas
        (baselineMsg s dest data gasPrice gasTipCap gasFeeCap value) = .error err) :
    estimateGasLimit s dest data gasPrice gasTipCap gasFeeCap value b = (0, none, some err) := by
  simp [estimateGasLimit, hbase]

/-- A failed access-list simulation (RPC error or execution-error string)
fails the estimation, with no access list. -/
theorem estimateGasLimit_access_list_failure (s : Sender) (dest : Option Address)
    (data : List Nat) (gasPrice gasTipCap gasFeeCap value : Option Int) (g : Nat)
    (hbase : s.client.EstimateGas
        (baselineMsg s dest data gasPrice gasTipCap gasFeeCap value) = .ok g)
    (hfail : (s.gethClient.CreateAccessList
        (accessListMsg (baselineMsg s dest data gasPrice gasTipCap gasFeeCap value) g)).err ≠ none
      ∨ (s.gethClient.CreateAccessList
        (accessListMsg (baselineMsg s dest data gasPrice gasTipCap gasFeeCap value) g)).vmErr ≠ "") :
    ∃ err, estimateGasLimit s dest data gasPrice gasTipCap gasFeeCap value true
      = (g, none, some err) := by
  simp only [estimateGasLimit, hbase]
  cases herr : (s.gethClient.CreateAccessList
      (accessListMsg (baselineMsg s dest data gasPrice gasTipCap gasFeeCap value) g)).err with
  | some e => exact ⟨e, by simp⟩
  | none =>
    have hvm : (s.gethClient.CreateAccessList
        (accessListMsg (baselineMsg s dest data gasPrice gasTipCap gasFeeCap value) g)).vmErr ≠ "" := by
      rcases hfail with h | h
      · exact absurd herr h
      · exact h
    exact ⟨Error.errorf (s.gethClient.CreateAccessList
      (accessListMsg (baselineMsg s dest data gasPrice gasTipCap gasFeeCap value) g)).vmErr,
      by simp [hvm]⟩

/-- Every error path of `estimateGasLimit` returns no access list. -/
theorem estimateGasLimit_error_no_access_list (s : Sender) (dest : Option Address)
    (data : List Nat) (gasPrice gasTipCap gasFeeCap value : Option Int) (b : Bool)
    (h : (estimateGasLimit s dest data gasPrice gasTipCap gasFeeCap value b).2.2 ≠ none) :
    (estimateGasLimit s dest data gasPrice gasTipCap gasFeeCap value b).2.1 = none := by
  revert h
  simp only [estimateGasLimit]
  split
  · simp
  · split
    · simp
    · split
      · simp
      · split
        · simp
        · split <;> simp

/-! ## Properties of the fee estimators -/

theorem addMargin_of_lt (g : Nat) (h : g * 12 < 2 ^ 64) : addMargin g = 12 * g / 10 := by
  unfold addMargin u64
  rw [Nat.mod_eq_of_lt h, Nat.mul_comm]

/-- C6 (as stated, refuted): the baseline simulation returns the `uint64`
value `2 ^ 63`; `estimateLegacyGas` returns a quote whose gas limit is 0, not
the truncated quotient of `12 * 2 ^ 63` by 10. -/
theorem estimateLegacyGas_margin_overflows :
    largeGasSender.client.SuggestGasPrice = .ok 1
      ∧ largeGasSender.client.EstimateGas
          (baselineMsg largeGasSender (some 7) [] (some 1) none none none)
        = .ok 9223372036854775808
      ∧ (9223372036854775808 : Nat) < 2 ^ 64
      ∧ ∃ q : FeeData, estimateLegacyGas largeGasSender (some 7) none [] 0
            = .returned (some q, none)
          ∧ q.gasLimit = 0
          ∧ q.gasLimit ≠ 12 * 9223372036854775808 / 10 :=
  ⟨rfl, rfl, by decide,
    ⟨{ gasPrice := some 1, gasLimit := 0, gasTipCap := none, gasFeeCap := none,
       accessList := [] }, by decide, rfl, by decide⟩⟩

/-- C6 (amended): when the gas-price query succeeds and the baseline
simulation returns `g`, `estimateLegacyGas` returns, for every fallback, a
quote whose gas limit is the quotient by 10 of `12 * g` reduced modulo
`2 ^ 64`; this is the truncated quotient of `12 * g` by 10 whenever
`12 * g < 2 ^ 64`. -/
theorem estimateLegacyGas_margin (s : Sender) (dest : Option Address) (value : Option Int)
    (data : List Nat) (fallbackGasLimit : Nat) (p : Int) (g : Nat)
    (hprice : s.client.SuggestGasPrice = .ok p)
    (hbase : s.client.EstimateGas (baselineMsg s dest data (some p) none none value) = .ok g) :
    ∃ q : FeeData, estimateLegacyGas s dest value data fallbackGasLimit
          = .returned (some q, none)
        ∧ q.gasLimit = (12 * g) % 2 ^ 64 / 10
        ∧ (12 * g < 2 ^ 64 → q.gasLimit = 12 * g / 10) := by
  have hr := estimateGasLimit_baseline s dest data (some p) none none value g hbase
  refine ⟨{ gasPrice := some p, gasLimit := addMargin g, gasTipCap := none,
            gasFeeCap := none, accessList := [] }, ?_, ?_, ?_⟩
  · simp [estimateLegacyGas, hprice, hr]
  · simp [addMargin, u64, Nat.mul_comm]
  · intro h
    exact addMargin_of_lt g (by omega)

theorem estimateLegacyGas_margin_witness :
    scenarioA.client.SuggestGasPrice = .ok 1
      ∧ scenarioA.client.EstimateGas (baselineMsg scenarioA (some 7) [] (some 1) none none none)
        = .ok 100000
      ∧ ∃ q : FeeData, estimateLegacyGas scenarioA (some 7) none [] 0
            = .returned (some q, none)
          ∧ q.gasLimit = 120000 :=
  ⟨rfl, rfl,
    (estimateLegacyGas_margin scenarioA (some 7) none [] 0 1 100000 rfl rfl).elim
      (fun q hq => ⟨q, hq.1, (hq.2.2 (by decide)).trans (by decide)⟩)⟩

/-- C7 (as stated, refuted): the tip query succeeds and `estimateGasLimit`
returns the `uint64` gas limit `2 ^ 63` without error; `estimateDynamicGas`
returns a quote whose gas limit is 0, not the truncated quotient of
`12 * 2 ^ 63` by 10. -/
theorem estimateDynamicGas_margin_overflows :
    largeGasSender.client.SuggestGasTipCap = .ok 2
      ∧ estimateGasLimit largeGasSender (some 7) [] none (some 2) (some 2002) none true
        = (9223372036854775808, none, none)
      ∧ (9223372036854775808 : Nat) < 2 ^ 64
      ∧ ∃ q : FeeData, estimateDynamicGas largeGasSender (some 7) none [] 0 1000
            = .returned (some q, none)
          ∧ q.gasLimit = 0
          ∧ q.gasLimit ≠ 12 * 9223372036854775808 / 10 :=
  ⟨rfl, by decide, by decide,
    ⟨{ gasPrice := none, gasLimit := 0, gasTipCap := some 2, gasFeeCap := some 2002,
       accessList := [] }, by decide, rfl, by decide⟩⟩

/-- C7 (amended): when the tip query returns `t` and `estimateGasLimit`
returns the gas limit `m` and the access list `al` without error,
`estimateDynamicGas` returns a quote whose gas limit is the quotient by 10 of
`12 * m` reduced modulo `2 ^ 64` (the truncated quotient of `12 * m` by 10
whenever `12 * m < 2 ^ 64`) and whose access list is `al`, empty when
`estimateGasLimit` returned none. -/
theorem estimateDynamicGas_margin (s : Sender) (dest : Option Address) (value : Option Int)
    (data : List Nat) (fallbackGasLimit baseFee : Nat) (t : Int) (m : Nat)
    (al : Option AccessList)
    (htip : s.client.SuggestGasTipCap = .ok t)
    (hok : estimateGasLimit s dest data none (some t) (some (t + (baseFee : Int) * 2)) value true
      = (m, al, none)) :
    ∃ q : FeeData, estimateDynamicGas s dest value data fallbackGasLimit baseFee
          = .returned (some q, none)
        ∧ q.gasLimit = (12 * m) % 2 ^ 64 / 10
        ∧ (12 * m < 2 ^ 64 → q.gasLimit = 12 * m / 10)
        ∧ q.accessList = al.getD [] := by
  refine ⟨{ gasPrice := none, gasLimit := addMargin m, gasTipCap := some t,
            gasFeeCap := some (t + (baseFee : Int) * 2), accessList := al.getD [] },
          ?_, ?_, ?_, rfl⟩
  · simp [estimateDynamicGas, htip, hok]
  · simp [addMargin, u64, Nat.mul_comm]
  · intro h
    exact addMargin_of_lt m (by omega)

theorem estimateDynamicGas_margin_witness :
    scenarioD.client.SuggestGasTipCap = .ok 2
      ∧ estimateGasLimit scenarioD (some 7) [] none (some 2) (some ((2 : Int) + (1000 : Nat) * 2))
          none true
        = (88600, some [entryWith 8 3], none)
      ∧ ∃ q : FeeData, estimateDynamicGas scenarioD (some 7) none [] 0 1000
            = .returned (some q, none)
          ∧ q.gasLimit = 106320
          ∧ q.accessList = [entryWith 8 3] :=
  ⟨rfl, by decide,
    (estimateDynamicGas_margin scenarioD (some 7) none [] 0 1000 2 88600
        (some [entryWith 8 3]) rfl (by decide)).elim
      (fun q hq => ⟨q, hq.1, (hq.2.2.1 (by decide)).trans (by decide), hq.2.2.2⟩)⟩

/-- With a non-nil destination, a failed gas-limit estimation and a non-zero
fallback, `estimateLegacyGas` returns a quote with the fallback as gas limit. -/
theorem estimateLegacyGas_fallback (s : Sender) (d : Address) (value : Option Int)
    (data : List Nat) (f : Nat) (p : Int) (err : Error) (hf : f ≠ 0)
    (hprice : s.client.SuggestGasPrice = .ok p)
    (hfail : (estimateGasLimit s (some d) data (some p) none none value false).2.2 = some err) :
    estimateLegacyGas s (some d) value data f
      = .returned (some { gasPrice := some p, gasLimit := f, gasTipCap := none,
                          gasFeeCap := none, accessList := [] }, none) := by
  simp [estimateLegacyGas, hprice, hfail, hf]

/-- With a non-nil destination, a failed gas-limit estimation and a non-zero
fallback, `estimateDynamicGas` returns a quote with the fallback as gas limit
and no access list. -/
theorem estimateDynamicGas_fallback (s : Sender) (d : Address) (value : Option Int)
    (data : List Nat) (f baseFee : Nat) (t : Int) (err : Error) (hf : f ≠ 0)
    (htip : s.client.SuggestGasTipCap = .ok t)
    (hfail : (estimateGasLimit s (some d) data none (some t) (some (t + (baseFee : Int) * 2))
      value true).2.2 = some err) :
    estimateDynamicGas s (some d) value data f baseFee
      = .returned (some { gasPrice := none, gasLimit := f, gasTipCap := some t,
                          gasFeeCap := some (t + (baseFee : Int) * 2), accessList := [] },
                   none) := by
  have hal := estimateGasLimit_error_no_access_list s (some d) data none (some t)
    (some (t + (baseFee : Int) * 2)) value true (by simp [hfail])
  simp [estimateDynamicGas, htip, hfail, hf, hal]

/-- With a non-nil destination, a failed gas-limit estimation and no fallback,
`estimateLegacyGas` returns the error of the estimation and no quote. -/
theorem estimateLegacyGas_propagates (s : Sender) (d : Address) (value : Option Int)
    (data : List Nat) (p : Int) (err : Error)
    (hprice : s.client.SuggestGasPrice = .ok p)
    (hfail : (estimateGasLimit s (some d) data (some p) none none value false).2.2 = some err) :
    estimateLegacyGas s (some d) value data 0 = .returned (none, some err) := by
  simp [estimateLegacyGas, hprice, hfail]

/-- With a non-nil destination, a failed gas-limit estimation and no fallback,
`estimateDynamicGas` returns the error of the estimation and no quote. -/
theorem estimateDynamicGas_propagates (s : Sender) (d : Address) (value : Option Int)
    (data : List Nat) (baseFee : Nat) (t : Int) (err : Error)
    (htip : s.client.SuggestGasTipCap = .ok t)
    (hfail : (estimateGasLimit s (some d) data none (some t) (some (t + (baseFee : Int) * 2))
      value true).2.2 = some err) :
    estimateDynamicGas s (some d) value data 0 baseFee = .returned (none, some err) := by
  simp [estimateDynamicGas, htip, hfail]

/-- With a nil destination, a failed gas-limit estimation makes both
estimators panic, whatever the fallback. -/
theorem estimators_nil_destination (s : Sender) (value : Option Int) (data : List Nat)
    (f baseFee : Nat) (p t : Int) (e1 e2 : Error)
    (hprice : s.client.SuggestGasPrice = .ok p)
    (htip : s.client.SuggestGasTipCap = .ok t)
    (h1 : (estimateGasLimit s none data (some p) none none value false).2.2 = some e1)
    (h2 : (estimateGasLimit s none data none (some t) (some (t + (baseFee : Int) * 2))
      value true).2.2 = some e2) :
    estimateLegacyGas s none value data f = .nilDereference
      ∧ estimateDynamicGas s none value data f baseFee = .nilDereference := by
  constructor
  · simp [estimateLegacyGas, hprice, h1]
  · simp [estimateDynamicGas, htip, h2]

/-- C8 (at the failing input): the baseline simulation fails, the fallback is
50000 and the destination is nil; both estimators panic at the log call that
evaluates `to.String()` and return no quote. With the destination `7` they
return a quote whose gas limit is 50000. -/
theorem fallback_nil_destination_panics :
    estimateLegacyGas scenarioB none none [] 50000 = .nilDereference
      ∧ estimateDynamicGas scenarioB none none [] 50000 1000 = .nilDereference
      ∧ estimateLegacyGas scenarioB (some 7) none [] 50000
        = .returned (some { gasPrice := some 1, gasLimit := 50000, gasTipCap := none,
                            gasFeeCap := none, accessList := [] }, none)
      ∧ estimateDynamicGas scenarioB (some 7) none [] 50000 1000
        = .returned (some { gasPrice := none, gasLimit := 50000, gasTipCap := some 2,
                            gasFeeCap := some 2002, accessList := [] }, none) := by
  decide

/-- C9 (at the failing input): the baseline simulation fails, the fallback is
0 and the destination is nil; both estimators panic at the log call that
evaluates `to.String()` instead of returning the error. With the destination
`7` they return the error of the simulation and no quote. -/
theorem no_fallback_nil_destination_panics :
    estimateLegacyGas scenarioB none none [] 0 = .nilDereference
      ∧ estimateDynamicGas scenarioB none none [] 0 1000 = .nilDereference
      ∧ estimateLegacyGas scenarioB (some 7) none [] 0 = .returned (none, some (.rpc 1))
      ∧ estimateDynamicGas scenarioB (some 7) none [] 0 1000
        = .returned (none, some (.rpc 1)) := by
  decide

/-- C10 (at the failing input): the access-list simulation reports an
execution-error string (or an RPC error) after a successful baseline
simulation; `estimateGasLimit` returns an error, and with a nil destination
`estimateDynamicGas` panics at the log call that evaluates `to.String()`,
with the fallback 0 and with the fallback 50000. With the destination `7` it
returns the error, or a quote whose gas limit is 50000. -/
theorem access_list_failure_nil_destination_panics :
    estimateGasLimit scenarioF none [] none (some 2) (some 2002) none true
        = (100000, none, some (.errorf "execution reverted"))
      ∧ estimateDynamicGas scenarioF none none [] 0 1000 = .nilDereference
      ∧ estimateDynamicGas scenarioF none none [] 50000 1000 = .nilDereference
      ∧ estimateDynamicGas rpcFailureSender none none [] 50000 1000 = .nilDereference
      ∧ estimateDynamicGas scenarioF (some 7) none [] 0 1000
        = .returned (none, some (.errorf "execution reverted"))
      ∧ estimateDynamicGas scenarioF (some 7) none [] 50000 1000
        = .returned (some { gasPrice := none, gasLimit := 50000, gasTipCap := some 2,
                            gasFeeCap := some 2002, accessList := [] }, none) := by
  decide

/-- The quote returned by `estimateLegacyGas`, field by field. -/
theorem estimateLegacyGas_quote (s : Sender) (dest : Option Address) (value : Option Int)
    (data : List Nat) (f : Nat) (p : Int) (q : FeeData)
    (hprice : s.client.SuggestGasPrice = .ok p)
    (hret : estimateLegacyGas s dest value data f = .returned (some q, none)) :
    q.gasPrice = some p ∧ q.gasTipCap = none ∧ q.gasFeeCap = none ∧ q.accessList = []
      ∧ (((estimateGasLimit s dest data (some p) none none value false).2.2 = none
            ∧ q.gasLimit
              = addMargin (estimateGasLimit s dest data (some p) none none value false).1)
          ∨ ((estimateGasLimit s dest data (some p) none none value false).2.2 ≠ none
            ∧ f ≠ 0 ∧ q.gasLimit = f)) := by
  simp only [estimateLegacyGas, hprice] at hret
  cases herr : (estimateGasLimit s dest data (some p) none none value false).2.2 with
  | none =>
    simp only [herr] at hret
    injection hret with hret
    injection hret with hq _
    injection hq with hq
    subst hq
    simp
  | some err =>
    simp only [herr] at hret
    cases dest with
    | none => simp at hret
    | some d =>
      by_cases hf : f = 0
      · simp [hf] at hret
      · simp only [hf, if_false] at hret
        injection hret with hret
        injection hret with hq _
        injection hq with hq
        subst hq
        simp [hf]

/-- The quote returned by `estimateDynamicGas`, field by field. -/
theorem estimateDynamicGas_quote (s : Sender) (dest : Option Address) (value : Option Int)
    (data : List Nat) (f b : Nat) (t : Int) (q : FeeData)
    (htip : s.client.SuggestGasTipCap = .ok t)
    (hret : estimateDynamicGas s dest value data f b = .returned (some q, none)) :
    q.gasTipCap = some t ∧ q.gasFeeCap = some (t + (b : Int) * 2) ∧ q.gasPrice = none
      ∧ q.accessList
        = (estimateGasLimit s dest data none (some t) (some (t + (b : Int) * 2)) value true).2.1.getD []
      ∧ (((estimateGasLimit s dest data none (some t) (some (t + (b : Int) * 2)) value true).2.2
              = none
            ∧ q.gasLimit = addMargin
                (estimateGasLimit s dest data none (some t) (some (t + (b : Int) * 2)) value true).1)
          ∨ ((estimateGasLimit s dest data none (some t) (some (t + (b : Int) * 2)) value true).2.2
              ≠ none
            ∧ f ≠ 0 ∧ q.gasLimit = f)) := by
  simp only [estimateDynamicGas, htip] at hret
  cases herr : (estimateGasLimit s dest data none (some t) (some (t + (b : Int) * 2))
      value true).2.2 with
  | none =>
    simp only [herr] at hret
    injection hret with hret
    injection hret with hq _
    injection hq with hq
    subst hq
    simp
  | some err =>
    simp only [herr] at hret
    cases dest with
    | none => simp at hret
    | some d =>
      by_cases hf : f = 0
      · simp [hf] at hret
      · simp only [hf, if_false] at hret
        injection hret with hret
        injection hret with hq _
        injection hq with hq
        subst hq
        simp [hf]

/-- C11: whenever the tip query returns `t` and `estimateDynamicGas` returns a
quote without error, on the success path and on the fallback path alike, the
quote has `gasTipCap = t` and `gasFeeCap = t + 2 * baseFee` as integers of
arbitrary precision. -/
theorem estimateDynamicGas_fee_cap (s : Sender) (dest : Option Address) (value : Option Int)
    (data : List Nat) (f b : Nat) (t : Int) (q : FeeData)
    (htip : s.client.SuggestGasTipCap = .ok t)
    (hret : estimateDynamicGas s dest value data f b = .returned (some q, none)) :
    q.gasTipCap = some t ∧ q.gasFeeCap = some (t + 2 * (b : Int)) := by
  have h := estimateDynamicGas_quote s dest value data f b t q htip hret
  refine ⟨h.1, ?_⟩
  rw [h.2.1, Int.mul_comm]

theorem estimateDynamicGas_fee_cap_witness :
    scenarioA.client.SuggestGasTipCap = .ok 2
      ∧ estimateDynamicGas scenarioA (some 7) none [] 0 1000
        = .returned (some { gasPrice := none, gasLimit := 120000, gasTipCap := some 2,
                            gasFeeCap := some 2002, accessList := [] }, none)
      ∧ (some (2002 : Int) = some ((2 : Int) + 2 * ((1000 : Nat) : Int))) :=
  ⟨rfl, by decide,
    (estimateDynamicGas_fee_cap scenarioA (some 7) none [] 0 1000 2
      { gasPrice := none, gasLimit := 120000, gasTipCap := some 2,
        gasFeeCap := some 2002, accessList := [] } rfl (by decide)).2⟩

/-- C12: if the gas-price query fails, `estimateLegacyGas` returns that error
and no quote; if the tip query fails, `estimateDynamicGas` returns that error
and no quote; in both cases for every fallback gas limit, every destination
and whatever the simulations would return. -/
theorem price_query_failure_is_fatal (s : Sender) (dest : Option Address)
    (value : Option Int) (data : List Nat) (f b : Nat) (e : Error) :
    (s.client.SuggestGasPrice = .error e →
        estimateLegacyGas s dest value data f = .returned (none, some e))
      ∧ (s.client.SuggestGasTipCap = .error e →
        estimateDynamicGas s dest value data f b = .returned (none, some e)) := by
  constructor
  · intro h
    simp [estimateLegacyGas, h]
  · intro h
    simp [estimateDynamicGas, h]

theorem price_query_failure_is_fatal_witness :
    priceFailureSender.client.SuggestGasPrice = .error (.rpc 3)
      ∧ estimateLegacyGas priceFailureSender (some 7) none [] 50000
        = .returned (none, some (.rpc 3))
      ∧ priceFailureSender.client.SuggestGasTipCap = .error (.rpc 4)
      ∧ estimateDynamicGas priceFailureSender none none [] 50000 1000
        = .returned (none, some (.rpc 4)) :=
  ⟨rfl,
    (price_query_failure_is_fatal priceFailureSender (some 7) none [] 50000 1000 (.rpc 3)).1 rfl,
    rfl,
    (price_query_failure_is_fatal priceFailureSender none none [] 50000 1000 (.rpc 4)).2 rfl⟩

theorem addMargin_pos_iff (m : Nat) : 0 < addMargin m ↔ 10 ≤ (12 * m) % 2 ^ 64 := by
  unfold addMargin u64
  rw [Nat.mul_comm m 12]
  omega

/-- C13 (as stated, refuted): the simulations return the gas estimate 0; both
estimators return a quote without error whose gas limit is 0. -/
theorem zero_gas_estimate_gives_zero_gasLimit :
    (∃ q : FeeData, estimateLegacyGas zeroGasSender (some 7) none [] 0
          = .returned (some q, none) ∧ ¬ 0 < q.gasLimit)
      ∧ (∃ q : FeeData, estimateDynamicGas zeroGasSender (some 7) none [] 0 1000
          = .returned (some q, none) ∧ ¬ 0 < q.gasLimit) :=
  ⟨⟨{ gasPrice := some 1, gasLimit := 0, gasTipCap := none, gasFeeCap := none,
      accessList := [] }, by decide, by decide⟩,
   ⟨{ gasPrice := none, gasLimit := 0, gasTipCap := some 2, gasFeeCap := some 2002,
      accessList := [] }, by decide, by decide⟩⟩

/-- C13 (amended): for a quote returned without error by `estimateLegacyGas`
or `estimateDynamicGas`, the gas limit is strictly positive when it is the
fallback (the gas-limit estimation failed); when the estimation succeeded
with the gas limit `m`, it is strictly positive exactly when `12 * m` reduced
modulo `2 ^ 64` is at least 10, in particular whenever `1 ≤ m` and
`12 * m < 2 ^ 64`. -/
theorem quote_gasLimit_pos (s : Sender) (dest : Option Address) (value : Option Int)
    (data : List Nat) (f b : Nat) (q : FeeData) :
    (∀ p : Int, s.client.SuggestGasPrice = .ok p →
        estimateLegacyGas s dest value data f = .returned (some q, none) →
        ((estimateGasLimit s dest data (some p) none none value false).2.2 ≠ none →
            q.gasLimit = f ∧ 0 < q.gasLimit)
          ∧ ((estimateGasLimit s dest data (some p) none none value false).2.2 = none →
            (0 < q.gasLimit ↔
              10 ≤ (12 * (estimateGasLimit s dest data (some p) none none value false).1)
                % 2 ^ 64))
          ∧ ((estimateGasLimit s dest data (some p) none none value false).2.2 = none →
            1 ≤ (estimateGasLimit s dest data (some p) none none value false).1 →
            12 * (estimateGasLimit s dest data (some p) none none value false).1 < 2 ^ 64 →
            0 < q.gasLimit))
      ∧ (∀ t : Int, s.client.SuggestGasTipCap = .ok t →
        estimateDynamicGas s dest value data f b = .returned (some q, none) →
        ((estimateGasLimit s dest data none (some t) (some (t + (b : Int) * 2)) value true).2.2
              ≠ none →
            q.gasLimit = f ∧ 0 < q.gasLimit)
          ∧ ((estimateGasLimit s dest data none (some t) (some (t + (b : Int) * 2)) value true).2.2
              = none →
            (0 < q.gasLimit ↔
              10 ≤ (12 * (estimateGasLimit s dest data none (some t)
                (some (t + (b : Int) * 2)) value true).1) % 2 ^ 64))
          ∧ ((estimateGasLimit s dest data none (some t) (some (t + (b : Int) * 2)) value true).2.2
              = none →
            1 ≤ (estimateGasLimit s dest data none (some t)
              (some (t + (b : Int) * 2)) value true).1 →
            12 * (estimateGasLimit s dest data none (some t)
              (some (t + (b : Int) * 2)) value true).1 < 2 ^ 64 →
            0 < q.gasLimit)) := by
  constructor
  · intro p hprice hret
    have h := (estimateLegacyGas_quote s dest value data f p q hprice hret).2.2.2.2
    refine ⟨?_, ?_, ?_⟩
    · intro herr
      rcases h with h | h
      · exact absurd h.1 herr
      · exact ⟨h.2.2, by rw [h.2.2]; exact Nat.pos_of_ne_zero h.2.1⟩
    · intro hok
      rcases h with h | h
      · rw [h.2]
        exact addMargin_pos_iff _
      · exact absurd hok h.1
    · intro hok h1 h12
      rcases h with h | h
      · rw [h.2]
        refine (addMargin_pos_iff _).2 ?_
        rw [Nat.mod_eq_of_lt h12]
        omega
      · exact absurd hok h.1
  · intro t htip hret
    have h := (estimateDynamicGas_quote s dest value data f b t q htip hret).2.2.2.2
    refine ⟨?_, ?_, ?_⟩
    · intro herr
      rcases h with h | h
      · exact absurd h.1 herr
      · exact ⟨h.2.2, by rw [h.2.2]; exact Nat.pos_of_ne_zero h.2.1⟩
    · intro hok
      rcases h with h | h
      · rw [h.2]
        exact addMargin_pos_iff _
      · exact absurd hok h.1
    · intro hok h1 h12
      rcases h with h | h
      · rw [h.2]
        refine (addMargin_pos_iff _).2 ?_
        rw [Nat.mod_eq_of_lt h12]
        omega
      · exact absurd hok h.1

theorem quote_gasLimit_pos_witness :
    (0 < (120000 : Nat))
      ∧ estimateLegacyGas scenarioA (some 7) none [] 0
        = .returned (some { gasPrice := some 1, gasLimit := 120000, gasTipCap := none,
                            gasFeeCap := none, accessList := [] }, none)
      ∧ (estimateGasLimit scenarioA (some 7) [] (some 1) none none none false).1 = 100000 :=
  ⟨((quote_gasLimit_pos scenarioA (some 7) none [] 0 1000
      { gasPrice := some 1, gasLimit := 120000, gasTipCap := none, gasFeeCap := none,
        accessList := [] }).1 1 rfl (by decide)).2.2 (by decide) (by decide) (by decide),
    by decide, by decide⟩

/-- C14: a quote returned without error by `estimateLegacyGas` has the
suggested gas price as `gasPrice`, no `gasTipCap`, no `gasFeeCap` and no access
list, and the result of `estimateLegacyGas` does not depend on the access-list
simulation; a quote returned without error by `estimateDynamicGas` has
`gasTipCap` and `gasFeeCap` set and no `gasPrice`. -/
theorem quote_fields_by_fee_model (s : Sender) (dest : Option Address) (value : Option Int)
    (data : List Nat) (f b : Nat) (q : FeeData) :
    (∀ p : Int, s.client.SuggestGasPrice = .ok p →
        estimateLegacyGas s dest value data f = .returned (some q, none) →
        q.gasPrice = some p ∧ q.gasTipCap = none ∧ q.gasFeeCap = none ∧ q.accessList = [])
      ∧ (∀ gc : GethClient,
        estimateLegacyGas { s with gethClient := gc } dest value data f
          = estimateLegacyGas s dest value data f)
      ∧ (estimateDynamicGas s dest value data f b = .returned (some q, none) →
        q.gasTipCap ≠ none ∧ q.gasFeeCap ≠ none ∧ q.gasPrice = none) := by
  refine ⟨?_, ?_, ?_⟩
  · intro p hprice hret
    have h := estimateLegacyGas_quote s dest value data f p q hprice hret
    exact ⟨h.1, h.2.1, h.2.2.1, h.2.2.2.1⟩
  · intro gc
    simp [estimateLegacyGas, estimateGasLimit, baselineMsg]
  · intro hret
    cases htip : s.client.SuggestGasTipCap with
    | error e => simp [estimateDynamicGas, htip] at hret
    | ok t =>
      have h := estimateDynamicGas_quote s dest value data f b t q htip hret
      rw [h.1, h.2.1]
      exact ⟨by simp, by simp, h.2.2.1⟩

theorem quote_fields_by_fee_model_witness :
    scenarioD.client.SuggestGasPrice = .ok 1
      ∧ estimateLegacyGas scenarioD (some 7) none [] 0
        = .returned (some { gasPrice := some 1, gasLimit := 120000, gasTipCap := none,
                            gasFeeCap := none, accessList := [] }, none)
      ∧ estimateDynamicGas scenarioD (some 7) none [] 0 1000
        = .returned (some { gasPrice := none, gasLimit := 106320, gasTipCap := some 2,
                            gasFeeCap := some 2002, accessList := [entryWith 8 3] }, none)
      ∧ (some (2 : Int) ≠ none ∧ some (2002 : Int) ≠ none ∧ (none : Option Int) = none) :=
  ⟨rfl, by decide, by decide,
    (quote_fields_by_fee_model scenarioD (some 7) none [] 0 1000
      { gasPrice := none, gasLimit := 106320, gasTipCap := some 2, gasFeeCap := some 2002,
        accessList := [entryWith 8 3] }).2.2 (by decide)⟩

/-! ## The requests sent to the chain client -/

/-- The only baseline request `estimateGasLimit` sends is `baselineMsg`: a
client that gives the same reply to that request gives the same result. -/
theorem estimateGasLimit_congr_client (s : Sender) (dest : Option Address) (data : List Nat)
    (gasPrice gasTipCap gasFeeCap value : Option Int) (b : Bool) (c : Client)
    (h : c.EstimateGas (baselineMsg s dest data gasPrice gasTipCap gasFeeCap value)
      = s.client.EstimateGas (baselineMsg s dest data gasPrice gasTipCap gasFeeCap value)) :
    estimateGasLimit { s with client := c } dest data gasPrice gasTipCap gasFeeCap value b
      = estimateGasLimit s dest data gasPrice gasTipCap gasFeeCap value b := by
  have hb : baselineMsg { s with client := c } dest data gasPrice gasTipCap gasFeeCap value
      = baselineMsg s dest data gasPrice gasTipCap gasFeeCap value := rfl
  simp only [estimateGasLimit, hb, h]

/-- The only access-list request `estimateGasLimit` sends is `accessListMsg`
of the baseline request and the baseline estimate. -/
theorem estimateGasLimit_congr_gethClient (s : Sender) (dest : Option Address)
    (data : List Nat) (gasPrice gasTipCap gasFeeCap value : Option Int) (b : Bool) (g : Nat)
    (gc : GethClient)
    (hbase : s.client.EstimateGas
        (baselineMsg s dest data gasPrice gasTipCap gasFeeCap value) = .ok g)
    (h : gc.CreateAccessList
        (accessListMsg (baselineMsg s dest data gasPrice gasTipCap gasFeeCap value) g)
      = s.gethClient.CreateAccessList
        (accessListMsg (baselineMsg s dest data gasPrice gasTipCap gasFeeCap value) g)) :
    estimateGasLimit { s with gethClient := gc } dest data gasPrice gasTipCap gasFeeCap value b
      = estimateGasLimit s dest data gasPrice gasTipCap gasFeeCap value b := by
  have hb : baselineMsg { s with gethClient := gc } dest data gasPrice gasTipCap gasFeeCap value
      = baselineMsg s dest data gasPrice gasTipCap gasFeeCap value := rfl
  simp only [estimateGasLimit, hb, hbase, h]

/-- After a successful baseline simulation returning `g`, the gas limit
returned by `estimateGasLimit` is at most `g`. -/
theorem estimateGasLimit_le_baseline (s : Sender) (dest : Option Address) (data : List Nat)
    (gasPrice gasTipCap gasFeeCap value : Option Int) (b : Bool) (g : Nat)
    (hbase : s.client.EstimateGas
        (baselineMsg s dest data gasPrice gasTipCap gasFeeCap value) = .ok g) :
    (estimateGasLimit s dest data gasPrice gasTipCap gasFeeCap value b).1 ≤ g := by
  simp only [estimateGasLimit, hbase]
  split
  · simp
  · split
    · simp
    · split
      · simp
      · split
        · rename_i hlt
          exact Nat.le_of_lt hlt
        · simp

/-- C15 (as stated, refuted): the baseline simulation of
`priceSensitiveSender` succeeds for a request without gas price, tip cap and
fee cap, as `estimateGasLimit` called without them shows; called by
`estimateLegacyGas` and by `estimateDynamicGas` it fails, because the request
carries the gas price (legacy) or the tip cap and the fee cap (dynamic). -/
theorem baseline_request_carries_price_fields :
    estimateGasLimit priceSensitiveSender (some 7) [] none none none none false
        = (100000, none, none)
      ∧ estimateLegacyGas priceSensitiveSender (some 7) none [] 0
        = .returned (none, some (.rpc 9))
      ∧ estimateDynamicGas priceSensitiveSender (some 7) none [] 0 1000
        = .returned (none, some (.rpc 9))
      ∧ (baselineMsg priceSensitiveSender (some 7) [] (some 1) none none none).GasPrice
        ≠ none := by
  decide

/-- C15 (amended): the request `estimateGasLimit` passes to the baseline
simulation carries the gas price, tip cap and fee cap it was given, leaves
`Gas` unset and carries no access list. From `estimateLegacyGas` it carries
the suggested gas price and no tip cap or fee cap; from `estimateDynamicGas`
it carries no gas price, the suggested tip and the fee cap
`tip + 2 * baseFee`. In both cases the estimator's result depends on the
baseline simulation through its reply to that request only. -/
theorem baseline_request_fields (s : Sender) (dest : Option Address) (value : Option Int)
    (data : List Nat) (f b : Nat) (p t : Int)
    (hprice : s.client.SuggestGasPrice = .ok p)
    (htip : s.client.SuggestGasTipCap = .ok t) :
    (∀ c : Client, c.SuggestGasPrice = .ok p →
        c.EstimateGas (baselineMsg s dest data (some p) none none value)
          = s.client.EstimateGas (baselineMsg s dest data (some p) none none value) →
        estimateLegacyGas { s with client := c } dest value data f
          = estimateLegacyGas s dest value data f)
      ∧ baselineMsg s dest data (some p) none none value
        = { From := s.From, To := dest, Gas := 0, GasPrice := some p, GasFeeCap := none,
            GasTipCap := none, Value := value, Data := data, AccessList := [] }
      ∧ (∀ c : Client, c.SuggestGasTipCap = .ok t →
        c.EstimateGas
            (baselineMsg s dest data none (some t) (some (t + 2 * (b : Int))) value)
          = s.client.EstimateGas
            (baselineMsg s dest data none (some t) (some (t + 2 * (b : Int))) value) →
        estimateDynamicGas { s with client := c } dest value data f b
          = estimateDynamicGas s dest value data f b)
      ∧ baselineMsg s dest data none (some t) (some (t + 2 * (b : Int))) value
        = { From := s.From, To := dest, Gas := 0, GasPrice := none,
            GasFeeCap := some (t + 2 * (b : Int)), GasTipCap := some t, Value := value,
            Data := data, AccessList := [] } := by
  refine ⟨?_, rfl, ?_, rfl⟩
  · intro c hc h
    have hg := estimateGasLimit_congr_client s dest data (some p) none none value false c h
    simp only [estimateLegacyGas, hc, hprice, hg]
  · intro c hc h
    rw [Int.mul_comm 2 (b : Int)] at h
    have hg := estimateGasLimit_congr_client s dest data none (some t)
      (some (t + (b : Int) * 2)) value true c h
    simp only [estimateDynamicGas, hc, htip, hg]

theorem baseline_request_fields_witness :
    priceSensitiveSender.client.SuggestGasPrice = .ok 1
      ∧ priceSensitiveSender.client.SuggestGasTipCap = .ok 2
      ∧ baselineMsg priceSensitiveSender (some 7) [] (some 1) none none none
        = { From := 1, To := some 7, Gas := 0, GasPrice := some 1, GasFeeCap := none,
            GasTipCap := none, Value := none, Data := [], AccessList := [] } :=
  ⟨rfl, rfl,
    (baseline_request_fields priceSensitiveSender (some 7) none [] 0 1000 1 2 rfl rfl).2.1⟩

/-- C16 (as stated, refuted): the baseline simulation returns the `uint64`
value `2 ^ 63`; the access-list simulation, which here reports the `Gas` field
of its request in its error, receives the ceiling `2 ^ 63`, not `3 * 2 ^ 63`. -/
theorem access_list_ceiling_overflows :
    (9223372036854775808 : Nat) < 2 ^ 64
      ∧ estimateGasLimit (ceilingEchoSender 9223372036854775808) (some 7) [] none (some 2)
          (some 2002) none true
        = (9223372036854775808, none, some (.rpc 9223372036854775808))
      ∧ (9223372036854775808 : Nat) ≠ 3 * 9223372036854775808 := by
  decide

/-- C16 (amended): after a baseline simulation returning `g`, the request
passed to the access-list simulation is the baseline request with `Gas` set
to `3 * g` reduced modulo `2 ^ 64` (which is `3 * g` whenever
`3 * g < 2 ^ 64`) and every other field unchanged, and the result depends on
the access-list simulation through its reply to that request only; the gas
limit returned is at most `g`, hence strictly below that ceiling whenever
`0 < g` and `3 * g < 2 ^ 64`. -/
theorem access_list_request (s : Sender) (dest : Option Address) (data : List Nat)
    (gasPrice gasTipCap gasFeeCap value : Option Int) (g : Nat)
    (hbase : s.client.EstimateGas
        (baselineMsg s dest data gasPrice gasTipCap gasFeeCap value) = .ok g) :
    (∀ gc : GethClient,
        gc.CreateAccessList
            (accessListMsg (baselineMsg s dest data gasPrice gasTipCap gasFeeCap value) g)
          = s.gethClient.CreateAccessList
            (accessListMsg (baselineMsg s dest data gasPrice gasTipCap gasFeeCap value) g) →
        estimateGasLimit { s with gethClient := gc } dest data gasPrice gasTipCap gasFeeCap
            value true
          = estimateGasLimit s dest data gasPrice gasTipCap gasFeeCap value true)
      ∧ accessListMsg (baselineMsg s dest data gasPrice gasTipCap gasFeeCap value) g
        = { From := s.From, To := dest, Gas := (3 * g) % 2 ^ 64, GasPrice := gasPrice,
            GasFeeCap := gasFeeCap, GasTipCap := gasTipCap, Value := value, Data := data,
            AccessList := [] }
      ∧ (3 * g < 2 ^ 64 →
        (accessListMsg (baselineMsg s dest data gasPrice gasTipCap gasFeeCap value) g).Gas
          = 3 * g)
      ∧ (estimateGasLimit s dest data gasPrice gasTipCap gasFeeCap value true).1 ≤ g
      ∧ (0 < g → 3 * g < 2 ^ 64 →
        (estimateGasLimit s dest data gasPrice gasTipCap gasFeeCap value true).1
          < (accessListMsg (baselineMsg s dest data gasPrice gasTipCap gasFeeCap value) g).Gas) := by
  have hle := estimateGasLimit_le_baseline s dest data gasPrice gasTipCap gasFeeCap value true g
    hbase
  have hgas : (accessListMsg (baselineMsg s dest data gasPrice gasTipCap gasFeeCap value) g).Gas
      = (3 * g) % 2 ^ 64 := by
    simp [accessListMsg, u64, Nat.mul_comm]
  refine ⟨?_, ?_, ?_, hle, ?_⟩
  · intro gc h
    exact estimateGasLimit_congr_gethClient s dest data gasPrice gasTipCap gasFeeCap value true
      g gc hbase h
  · simp [accessListMsg, baselineMsg, u64, Nat.mul_comm]
  · intro h3
    rw [hgas, Nat.mod_eq_of_lt h3]
  · intro h0 h3
    rw [hgas, Nat.mod_eq_of_lt h3]
    omega

theorem access_list_request_witness :
    scenarioD.client.EstimateGas (baselineMsg scenarioD (some 7) [] none (some 2) (some 2002) none)
        = .ok 100000
      ∧ (accessListMsg (baselineMsg scenarioD (some 7) [] none (some 2) (some 2002) none)
          100000).Gas = 300000
      ∧ (estimateGasLimit scenarioD (some 7) [] none (some 2) (some 2002) none true).1 ≤ 100000 :=
  ⟨rfl,
    (access_list_request scenarioD (some 7) [] none (some 2) (some 2002) none 100000 rfl).2.2.1
      (by decide),
    (access_list_request scenarioD (some 7) [] none (some 2) (some 2002) none 100000 rfl).2.2.2.1⟩

/-! ## Bounds on the optimized gas limit -/

/-- The dropped entries hold at most 23 storage keys each. -/
theorem dropped_keys_le (d : Address) (l : List AccessTuple) :
    ((l.filter (redundant d)).map (fun e => e.StorageKeys.length)).sum
      ≤ 23 * (l.filter (redundant d)).length := by
  induction l with
  | nil => simp
  | cons e rest ih =>
    by_cases h : redundant d e = true
    · have hlen : e.StorageKeys.length < 24 := ((redundant_iff d e).1 h).2
      rw [List.filter_cons_of_pos h]
      simp only [List.map_cons, List.sum_cons, List.length_cons]
      omega
    · rw [List.filter_cons_of_neg h]
      exact ih

/-- C17: for a non-nil access list `L`, a non-nil destination `d` and a
`uint64` gas limit `g` with `2400 * k ≤ g`, where `k` is the number of entries
of `L` for `d` with fewer than 24 storage keys, the gas limit `r` returned by
`finetuneAccessList` is at most `g`, equals `g` exactly when `k = 0`, and is
below `g` by at least `100 * k` and at most `2400 * k`. -/
theorem finetuneAccessList_gas_bounds (L : AccessList) (g : Nat) (d : Address)
    (hg : g < 2 ^ 64)
    (hk : 2400 * (L.filter
        (fun e => decide (e.Address = d ∧ e.StorageKeys.length < 24))).length ≤ g) :
    (finetuneAccessList (some L) g (some d)).2 ≤ g
      ∧ ((finetuneAccessList (some L) g (some d)).2 = g ↔
          (L.filter (fun e => decide (e.Address = d ∧ e.StorageKeys.length < 24))).length = 0)
      ∧ (finetuneAccessList (some L) g (some d)).2
          + 100 * (L.filter
              (fun e => decide (e.Address = d ∧ e.StorageKeys.length < 24))).length ≤ g
      ∧ g ≤ (finetuneAccessList (some L) g (some d)).2
          + 2400 * (L.filter
              (fun e => decide (e.Address = d ∧ e.StorageKeys.length < 24))).length := by
  have hg' : g < 18446744073709551616 := by
    norm_num at hg
    exact hg
  have hc := finetuneLoop_snd_cast d L [] g hg
  have hs := dropped_keys_le d L
  rw [← redundant_eq_decide] at hk ⊢
  have hr : (finetuneAccessList (some L) g (some d)).2 = (finetuneLoop d L [] g).2 := by
    simp [finetuneAccessList]
  rw [hr]
  generalize (finetuneLoop d L [] g).2 = r at hc ⊢
  generalize (List.map (fun e => e.StorageKeys.length) (List.filter (redundant d) L)).sum = S
    at hc hs
  generalize (List.filter (redundant d) L).length = k at hc hs hk ⊢
  rw [Int.emod_eq_of_lt (by omega) (by omega)] at hc
  omega

theorem finetuneAccessList_gas_bounds_witness :
    (90000 : Nat) < 2 ^ 64
      ∧ 2400 * ([entryWith 7 10, entryWith 8 3].filter
          (fun e => decide (e.Address = 7 ∧ e.StorageKeys.length < 24))).length ≤ 90000
      ∧ (finetuneAccessList (some [entryWith 7 10, entryWith 8 3]) 90000 (some 7)).2 ≤ 90000 :=
  ⟨by decide, by decide,
    (finetuneAccessList_gas_bounds [entryWith 7 10, entryWith 8 3] 90000 7 (by decide)
      (by decide)).1⟩

/-- C18: with the gas limit 1000 and an access list holding one entry for the
destination with no storage keys, `finetuneAccessList` returns a gas limit
strictly greater than 1000: the subtraction of 2400 wraps around modulo
`2 ^ 64` and gives `2 ^ 64 - 1400`. -/
theorem finetuneAccessList_can_raise_gas :
    finetuneAccessList (some [entryWith 7 0]) 1000 (some 7)
        = (some [], 18446744073709550216)
      ∧ 18446744073709550216 = 2 ^ 64 - 1400
      ∧ 1000 < (finetuneAccessList (some [entryWith 7 0]) 1000 (some 7)).2 := by
  decide

/-- C19: when the tip query succeeds, `estimateGasLimit` returns an error and
`estimateDynamicGas` returns a quote (its gas limit is then the non-zero
fallback), the quote's access list is empty, `estimateGasLimit` having
returned no access list. -/
theorem fallback_quote_has_no_access_list (s : Sender) (dest : Option Address)
    (value : Option Int) (data : List Nat) (f b : Nat) (t : Int) (q : FeeData)
    (htip : s.client.SuggestGasTipCap = .ok t)
    (hfail : (estimateGasLimit s dest data none (some t) (some (t + (b : Int) * 2))
      value true).2.2 ≠ none)
    (hret : estimateDynamicGas s dest value data f b = .returned (some q, none)) :
    q.accessList = [] ∧ q.gasLimit = f ∧ f ≠ 0
      ∧ (estimateGasLimit s dest data none (some t) (some (t + (b : Int) * 2)) value true).2.1
        = none := by
  have h := estimateDynamicGas_quote s dest value data f b t q htip hret
  have hal := estimateGasLimit_error_no_access_list s dest data none (some t)
    (some (t + (b : Int) * 2)) value true hfail
  refine ⟨?_, ?_, ?_, hal⟩
  · rw [h.2.2.2.1, hal]
    rfl
  · rcases h.2.2.2.2 with h' | h'
    · exact absurd h'.1 hfail
    · exact h'.2.2
  · rcases h.2.2.2.2 with h' | h'
    · exact absurd h'.1 hfail
    · exact h'.2.1

theorem fallback_quote_has_no_access_list_witness :
    scenarioF.client.SuggestGasTipCap = .ok 2
      ∧ (scenarioF.gethClient.CreateAccessList
          (accessListMsg (baselineMsg scenarioF (some 7) [] none (some 2) (some 2002) none)
            100000)).accessList = some [entryWith 7 10]
      ∧ estimateGasLimit scenarioF (some 7) [] none (some 2) (some 2002) none true
        = (100000, none, some (.errorf "execution reverted"))
      ∧ estimateDynamicGas scenarioF (some 7) none [] 50000 1000
        = .returned (some { gasPrice := none, gasLimit := 50000, gasTipCap := some 2,
                            gasFeeCap := some 2002, accessList := [] }, none)
      ∧ ([] : AccessList) = [] :=
  ⟨rfl, rfl, by decide, by decide,
    (fallback_quote_has_no_access_list scenarioF (some 7) none [] 50000 1000 2
      { gasPrice := none, gasLimit := 50000, gasTipCap := some 2, gasFeeCap := some 2002,
        accessList := [] } rfl (by decide) (by decide)).1⟩

/-- C20: with a nil access list, or with a nil destination, `finetuneAccessList`
returns its access list and its gas limit as they are, for every gas limit and
every list; so a list with an entry of 3 storage keys keeps that entry when
the destination is nil. -/
theorem finetuneAccessList_nil_arguments (L : Option AccessList) (g : Nat)
    (d : Option Address) :
    finetuneAccessList none g d = (none, g)
      ∧ finetuneAccessList L g none = (L, g)
      ∧ finetuneAccessList (some [entryWith 7 3, entryWith 8 30]) g none
        = (some [entryWith 7 3, entryWith 8 30], g) := by
  refine ⟨?_, ?_, ?_⟩
  · simp [finetuneAccessList]
  · cases L <;> simp [finetuneAccessList]
  · simp [finetuneAccessList]

end EstimateGas

